import Mathlib

/-!
# Verification of koishi-plugin-pinyin's platform-resolution and
# artifact-acquisition pipeline

Shallow embedding of the two source files:

* `src/src/downloader.ts` — `DownloadError`, `handleFile` (registry metadata
  fetch, tarball download, extraction) and `extract`, plus the service file
  with the table-driven resolver `platformArchMap` / `getNativeBinding`.
* `src/unnamed/part_000` — the older service file with the nested-switch
  resolver `getNativeBinding`.

JavaScript runtime conventions that matter to the embedding:

* `process.platform` ranges over the `NodeJS.Platform` union and
  `process.arch` over the `NodeJS.Architecture` union; we enumerate both.
* A JS `throw` can carry an `Error` object (with `name` and `message`
  fields) or any other value; the `extract` helper rejects with plain
  strings.  Reading `.message` on a string yields `undefined`, which
  template-interpolates as the text `"undefined"`.
* `'s'.replace('.', '-')` with a string pattern replaces only the first
  occurrence.
* Reading property `tarball` of `undefined` (when the registry response has
  no `dist` field) throws a `TypeError`; its Node message text is modelled
  by the constant `distUndefinedMsg`.
-/

namespace Pinyin

/-- The `NodeJS.Platform` union type, the domain of `process.platform`. -/
inductive Platform
  | aix | android | cygwin | darwin | freebsd | haiku | linux
  | netbsd | openbsd | sunos | win32
  deriving DecidableEq, Fintype, Repr

/-- The string value `process.platform` takes for each member of the union. -/
def Platform.str : Platform → String
  | .aix => "aix"
  | .android => "android"
  | .cygwin => "cygwin"
  | .darwin => "darwin"
  | .freebsd => "freebsd"
  | .haiku => "haiku"
  | .linux => "linux"
  | .netbsd => "netbsd"
  | .openbsd => "openbsd"
  | .sunos => "sunos"
  | .win32 => "win32"

/-- The `NodeJS.Architecture` union type, the domain of `process.arch`. -/
inductive Arch
  | arm | arm64 | ia32 | loong64 | mips | mipsel | ppc | ppc64
  | riscv64 | s390 | s390x | x64
  deriving DecidableEq, Fintype, Repr

/-- The string value `process.arch` takes for each member of the union. -/
def Arch.str : Arch → String
  | .arm => "arm"
  | .arm64 => "arm64"
  | .ia32 => "ia32"
  | .loong64 => "loong64"
  | .mips => "mips"
  | .mipsel => "mipsel"
  | .ppc => "ppc"
  | .ppc64 => "ppc64"
  | .riscv64 => "riscv64"
  | .s390 => "s390"
  | .s390x => "s390x"
  | .x64 => "x64"

/-- A JavaScript `Error` object restricted to the two fields the code
reads: `name` (used by `instanceof`-style dispatch, here by name) and
`message`. -/
structure JsError where
  name : String
  message : String
  deriving DecidableEq, Repr

/-- A JavaScript thrown/rejected value: either an `Error` object or a bare
string (the `extract` helper rejects with strings). -/
inductive JsVal
  | error (e : JsError)
  | str (s : String)
  deriving DecidableEq, Repr

/-- Evaluation of `${e.message}`: reading `.message` of an `Error` gives its message;
reading `.message` of a string gives `undefined`, which interpolates as the
text `"undefined"`. -/
def JsVal.jsMessage : JsVal → String
  | .error e => e.message
  | .str _ => "undefined"

/-- Test `e instanceof DownloadError`, modelled by the `name` tag that the
`DownloadError` constructor sets. -/
def JsVal.isDownloadError : JsVal → Bool
  | .error e => e.name == "DownloadError"
  | .str _ => false

/-- Build the value `new DownloadError(msg)` throws. -/
def downloadError (msg : String) : JsVal :=
  .error ⟨"DownloadError", msg⟩

/-- Build the value `new UnsupportedError(msg)` throws. -/
def unsupportedError (msg : String) : JsVal :=
  .error ⟨"UnsupportedError", msg⟩

/-! ## The table-driven resolver (`platformArchMap` in the index file
bundled at the end of `src/src/downloader.ts`) -/

/-- The `platformArchMap` object literal, keyed by platform then by
architecture.  The two `isMusl()` calls in the `linux` entry are modelled
by the boolean `musl` passed in by the caller. -/
def platformArchMap (musl : Bool) : List (String × List (String × String)) :=
  [ ("android",
      [ ("arm64", "pinyin.android-arm64"),
        ("arm", "pinyin.android-arm-eabi") ]),
    ("win32",
      [ ("x64", "pinyin.win32-x64-msvc"),
        ("ia32", "pinyin.win32-ia32-msvc"),
        ("arm64", "pinyin.win32-arm64-msvc") ]),
    ("darwin",
      [ ("x64", "pinyin.darwin-x64"),
        ("arm64", "pinyin.darwin-arm64") ]),
    ("freebsd",
      [ ("x64", "pinyin.freebsd-x64") ]),
    ("linux",
      [ ("x64", if musl then "pinyin.linux-x64-musl" else "pinyin.linux-x64-gnu"),
        ("arm64", if musl then "pinyin.linux-arm64-musl" else "pinyin.linux-arm64-gnu"),
        ("arm", "pinyin.linux-arm-gnueabihf") ]) ]

/-- Lines 249–260 of `src/src/downloader.ts` (second embedded file): the
`nodeName` computation of the table-driven `getNativeBinding`.  A missing
platform key or architecture key is JS `undefined`, which is falsy, hence
the two `throw new UnsupportedError(...)` branches. -/
def getNodeNameTable (platform arch : String) (musl : Bool) :
    Except JsVal String :=
  match (platformArchMap musl).lookup platform with
  | none =>
      .error (unsupportedError
        ("Unsupported OS: " ++ platform ++ ", architecture: " ++ arch))
  | some sub =>
      match sub.lookup arch with
      | none =>
          .error (unsupportedError
            ("Unsupported architecture on " ++ platform ++ ": " ++ arch))
      | some nodeName => .ok nodeName

/-! ## The nested-switch resolver (`getNativeBinding` in
`src/unnamed/part_000`, lines 139–222) -/

/-- The `switch (platform) { ... switch (arch) { ... } }` ladder of the
older resolver, including its per-family error message texts. -/
def getNodeNameSwitch (platform arch : String) (musl : Bool) :
    Except JsVal String :=
  match platform with
  | "android" =>
      match arch with
      | "arm64" => .ok "pinyin.android-arm64"
      | "arm" => .ok "pinyin.android-arm-eabi"
      | _ => .error (unsupportedError
          ("Unsupported architecture on Android " ++ arch))
  | "win32" =>
      match arch with
      | "x64" => .ok "pinyin.win32-x64-msvc"
      | "ia32" => .ok "pinyin.win32-ia32-msvc"
      | "arm64" => .ok "pinyin.win32-arm64-msvc"
      | _ => .error (unsupportedError
          ("Unsupported architecture on Windows: " ++ arch))
  | "darwin" =>
      match arch with
      | "x64" => .ok "pinyin.darwin-x64"
      | "arm64" => .ok "pinyin.darwin-arm64"
      | _ => .error (unsupportedError
          ("Unsupported architecture on macOS: " ++ arch))
  | "freebsd" =>
      if arch != "x64" then
        .error (unsupportedError
          ("Unsupported architecture on FreeBSD: " ++ arch))
      else .ok "pinyin.freebsd-x64"
  | "linux" =>
      match arch with
      | "x64" =>
          .ok (if musl then "pinyin.linux-x64-musl" else "pinyin.linux-x64-gnu")
      | "arm64" =>
          .ok (if musl then "pinyin.linux-arm64-musl" else "pinyin.linux-arm64-gnu")
      | "arm" => .ok "pinyin.linux-arm-gnueabihf"
      | _ => .error (unsupportedError
          ("Unsupported architecture on Linux: " ++ arch))
  | _ =>
      .error (unsupportedError
        ("Unsupported OS: " ++ platform ++ ", architecture: " ++ arch))

/-- The fixed support table of the spec: Android (arm64, arm),
Windows/win32 (x64, ia32, arm64), macOS/darwin (x64, arm64),
FreeBSD (x64), Linux (x64, arm64, arm). -/
def supportedPair : Platform → Arch → Bool
  | .android, .arm64 => true
  | .android, .arm => true
  | .win32, .x64 => true
  | .win32, .ia32 => true
  | .win32, .arm64 => true
  | .darwin, .x64 => true
  | .darwin, .arm64 => true
  | .freebsd, .x64 => true
  | .linux, .x64 => true
  | .linux, .arm64 => true
  | .linux, .arm => true
  | _, _ => false

instance {ε α : Type} [DecidableEq ε] [DecidableEq α] :
    DecidableEq (Except ε α) := fun x y =>
  match x, y with
  | .ok a, .ok b =>
      if h : a = b then .isTrue (by rw [h]) else .isFalse (by simp [h])
  | .error a, .error b =>
      if h : a = b then .isTrue (by rw [h]) else .isFalse (by simp [h])
  | .ok _, .error _ => .isFalse (by simp)
  | .error _, .ok _ => .isFalse (by simp)

/-- Predicate: `t` occurs as a contiguous substring of `s`. -/
def strContains (s t : String) : Prop :=
  t.data <:+: s.data

instance (s t : String) : Decidable (strContains s t) := by
  unfold strContains; infer_instance

/-! ## The acquisition pipeline (`handleFile` and `extract` in
`src/src/downloader.ts`, and lines 262–276 of the table-driven
`getNativeBinding`)

The external world (filesystem, registry, transfer mechanism, archive
contents, dynamic loader) is abstracted into an `Env`; the pipeline is a
pure function of the environment that also records the observable effects
(registry request, download, extraction, native load) in order. -/

/-- Field `res.dist` of the registry metadata response; `none` models a JSON
body without a `dist` field. -/
structure Dist where
  tarball : Option String
  deriving DecidableEq, Repr

/-- A parsed registry metadata response; `dist = none` models a body
without a `dist` object, `tarball = none` a `dist` without `tarball`. -/
structure RegMeta where
  dist : Option Dist
  deriving DecidableEq, Repr

/-- The object `downloader.download()` resolves with. -/
structure DlResult where
  filePath : String
  downloadStatus : String
  deriving DecidableEq, Repr

/-- Outcome of the read → gunzip → tar pipeline inside `extract`: success,
or a failure of one of the three stages, carrying the `${err}` text of the
stage's stream error. -/
inductive ExtractOutcome
  | success
  | readFail (e : String)
  | gunzipFail (e : String)
  | untarFail (e : String)
  deriving DecidableEq, Repr

/-- The external world a single acquisition run interacts with. -/
structure Env where
  /-- Result of `fs.existsSync` -/
  fileExists : String → Bool
  /-- outcome of `http.get(url)` on the registry metadata URL -/
  registry : Except JsVal RegMeta
  /-- outcome of `downloader.download()` -/
  download : Except JsVal DlResult
  /-- outcome of the extraction streams -/
  extractOutcome : ExtractOutcome
  /-- paths (relative to the directory holding the tarball, i.e. the
  target directory) that a successful extraction writes -/
  archiveEntries : List String
  /-- whether `require(path)` succeeds, given the file at `path` exists -/
  loadOk : String → Bool

/-- Observable effects of an acquisition run, in order. -/
inductive Effect
  | registryGet (url : String)
  | download (url : String)
  | extractRun (filePath : String)
  | loadNative (nodePath : String)
  deriving DecidableEq, Repr

/-- Whether the effect is a network request (registry metadata request or
tarball download). -/
def Effect.isNetwork : Effect → Bool
  | .registryGet _ => true
  | .download _ => true
  | _ => false

/-- Whether the effect is the extraction step. -/
def Effect.isExtractStep : Effect → Bool
  | .extractRun _ => true
  | _ => false

/-- A trace with no registry request and no download. -/
def networkFree (tr : List Effect) : Bool :=
  tr.all fun e => ! e.isNetwork

/-- Helper for `nodeName.replace` with a dot pattern: a string pattern in JS
substitutes only the first occurrence. -/
def replaceFirstDotAux : List Char → List Char
  | [] => []
  | c :: cs => if c = '.' then '-' :: cs else c :: replaceFirstDotAux cs

/-- Model of `nodeName.replace` of the first dot by a dash, on the string level. -/
def replaceFirstDot (s : String) : String :=
  ⟨replaceFirstDotAux s.data⟩

/-- The registry metadata URL built at the top of `handleFile`. -/
def metadataUrl (nodeName : String) : String :=
  "https://registry.npmjs.com/@napi-rs/" ++ replaceFirstDot nodeName ++ "/latest"

/-- The message of the `TypeError` Node throws when `handleFile` reads
`res.dist.tarball` and `res.dist` is `undefined` (the real text carries
quotes around the property name; they are immaterial here). -/
def distUndefinedMsg : String :=
  "Cannot read properties of undefined (reading tarball)"

/-- The rejection value of the `extract` promise: the three stage handlers
reject with plain strings (not `Error` objects). -/
def extractResult : ExtractOutcome → Except JsVal Unit
  | .success => .ok ()
  | .readFail e =>
      .error (.str ("An error occurred while reading the file: " ++ e))
  | .gunzipFail e =>
      .error (.str ("An error occurred while gunzipping the file: " ++ e))
  | .untarFail e =>
      .error (.str ("An error occurred during extraction: " ++ e))

/-- Model of `handleFile(nodeDir, nodeName, logger, http)` from
`src/src/downloader.ts`: registry metadata fetch, tarball-URL extraction,
download, extraction — returning the effect trace and the settled outcome
(`.error` is the rejection value). -/
def handleFile (env : Env) (nodeName : String) :
    List Effect × Except JsVal Unit :=
  let url := metadataUrl nodeName
  match env.registry with
  | .error e =>
      -- catch block of the metadata fetch
      ([.registryGet url],
        .error (downloadError ("Failed to fetch from URL: " ++ e.jsMessage)))
  | .ok res =>
      match res.dist with
      | none =>
          -- `res.dist.tarball` throws a TypeError inside the same try
          ([.registryGet url],
            .error (downloadError
              ("Failed to fetch from URL: " ++ distUndefinedMsg)))
      | some d =>
          match d.tarball with
          | none =>
              -- `if (!tarballUrl) throw new DownloadError(...)`
              ([.registryGet url],
                .error (downloadError
                  ("Failed to get the binary url from " ++ url)))
          | some tarballUrl =>
              if tarballUrl == "" then
                -- the empty string is falsy, so `!tarballUrl` also fires
                ([.registryGet url],
                  .error (downloadError
                    ("Failed to get the binary url from " ++ url)))
              else
                match env.download with
                | .error e =>
                    ([.registryGet url, .download tarballUrl],
                      .error (downloadError
                        ("Failed to download the binary file: " ++ e.jsMessage)))
                | .ok dl =>
                    if dl.downloadStatus == "COMPLETE" then
                      match extractResult env.extractOutcome with
                      | .ok _ =>
                          ([.registryGet url, .download tarballUrl,
                              .extractRun dl.filePath], .ok ())
                      | .error e =>
                          -- the catch wraps the rejection; `.message` of a
                          -- string rejection is `undefined`
                          ([.registryGet url, .download tarballUrl,
                              .extractRun dl.filePath],
                            .error (downloadError
                              ("Failed to download the binary file: "
                                ++ e.jsMessage)))
                    else
                      -- `throw new DownloadError('Download was aborted')`,
                      -- caught by the same catch and re-wrapped
                      ([.registryGet url, .download tarballUrl],
                        .error (downloadError
                          ("Failed to download the binary file: "
                            ++ (downloadError "Download was aborted").jsMessage)))

/-- Model of `path.join(a, b)` for the already-normalized POSIX paths the service
builds. -/
def pathJoin (a b : String) : String :=
  a ++ "/" ++ b

/-- Path `path.join(nodeDir, package, nodeName + .node)`: the expected
local binary path. -/
def nodePathOf (nodeDir nodeName : String) : String :=
  pathJoin (pathJoin nodeDir "package") (nodeName ++ ".node")

/-- The filesystem after a successful extraction into `nodeDir`: the
archive's entries appear under `nodeDir` (the downloaded tarball itself is
irrelevant to the pipeline and omitted). -/
def fsAfterExtract (env : Env) (nodeDir : String) : String → Bool :=
  fun q => env.fileExists q || (env.archiveEntries.map (pathJoin nodeDir)).contains q

/-- The value `require` throws when the binary is missing or fails to
load, as re-thrown by `getNativeBinding`'s catch block. -/
def loadFailure (nodePath platform arch : String) : JsVal :=
  .error ⟨"Error", "Failed to use " ++ nodePath ++ " on " ++ platform ++ "-" ++ arch⟩

/-- Result of the acquisition part of `getNativeBinding` (lines 262–276):
effect trace, settled outcome, and the filesystem afterwards. -/
structure AcqOut where
  trace : List Effect
  result : Except JsVal Unit
  fsAfter : String → Bool

/-- Lines 262–276 of the table-driven `getNativeBinding` (the nested-switch
file is identical here): check for the expected local file, run
`handleFile` only when it is absent, then `require` the binary; a
`DownloadError` is re-thrown as-is, any other failure is wrapped in a
generic `Error` naming the path and platform. -/
def acquire (env : Env) (nodeDir nodeName platform arch : String) : AcqOut :=
  let nodePath := nodePathOf nodeDir nodeName
  if env.fileExists nodePath then
    -- fast path: `localFileExisted` is true, `handleFile` is skipped
    if env.loadOk nodePath then
      ⟨[.loadNative nodePath], .ok (), env.fileExists⟩
    else
      ⟨[.loadNative nodePath],
        .error (loadFailure nodePath platform arch), env.fileExists⟩
  else
    match handleFile env nodeName with
    | (tr, .error e) =>
        -- `if (e instanceof DownloadError) throw e` else wrap
        if e.isDownloadError then
          ⟨tr, .error e, env.fileExists⟩
        else
          ⟨tr, .error (loadFailure nodePath platform arch), env.fileExists⟩
    | (tr, .ok _) =>
        let fs2 := fsAfterExtract env nodeDir
        if fs2 nodePath then
          if env.loadOk nodePath then
            ⟨tr ++ [.loadNative nodePath], .ok (), fs2⟩
          else
            ⟨tr ++ [.loadNative nodePath],
              .error (loadFailure nodePath platform arch), fs2⟩
        else
          -- `require` of a missing file throws; the catch wraps it
          ⟨tr ++ [.loadNative nodePath],
            .error (loadFailure nodePath platform arch), fs2⟩

/-- The environment as a later acquisition run sees it: same external
services, filesystem as the first run left it. -/
def envAfter (env : Env) (nodeDir nodeName platform arch : String) : Env :=
  { env with fileExists := (acquire env nodeDir nodeName platform arch).fsAfter }

/-- Check that a resolver outcome is an `UnsupportedError` whose message
contains both the given platform text and the given architecture text. -/
def errNamesBoth (r : Except JsVal String) (p a : String) : Bool :=
  match r with
  | .error (.error e) =>
      e.name == "UnsupportedError"
        && decide (strContains e.message p)
        && decide (strContains e.message a)
  | _ => false

/-- The label under which the nested-switch resolver's error messages
refer to each operating-system family (its `case` branches spell the
family name out; the default branch uses the raw platform value). -/
def switchOsLabel : String → String
  | "android" => "Android"
  | "win32" => "Windows"
  | "darwin" => "macOS"
  | "freebsd" => "FreeBSD"
  | "linux" => "Linux"
  | p => p

/-- Pointwise agreement of the two resolver variants at one input: both
succeed with the same identifier, or both fail with an
`UnsupportedError`. -/
def resolversAgree (p a : String) (m : Bool) : Bool :=
  match getNodeNameTable p a m, getNodeNameSwitch p a m with
  | .ok s, .ok t => s == t
  | .error (.error e), .error (.error f) =>
      e.name == "UnsupportedError" && f.name == "UnsupportedError"
  | _, _ => false

/-! ## Concrete environments used as witnesses and counterexamples -/

/-- A world where the expected binary is already on disk and loads; both
network services are down, so any network request would fail. -/
def envLocal : Env where
  fileExists := fun _ => true
  registry := .error (.error ⟨"Error", "offline"⟩)
  download := .error (.error ⟨"Error", "offline"⟩)
  extractOutcome := .success
  archiveEntries := []
  loadOk := fun _ => true

/-- A world where the binary is absent and the registry request fails
with a network error. -/
def envRegistryDown : Env where
  fileExists := fun _ => false
  registry := .error (.error ⟨"Error", "socket hang up"⟩)
  download := .error (.error ⟨"Error", "socket hang up"⟩)
  extractOutcome := .success
  archiveEntries := []
  loadOk := fun _ => false

/-- A world where the registry responds with a JSON body that has no
`dist` object at all. -/
def envNoDist : Env where
  fileExists := fun _ => false
  registry := .ok ⟨none⟩
  download := .error (.error ⟨"Error", "unreachable"⟩)
  extractOutcome := .success
  archiveEntries := []
  loadOk := fun _ => false

/-- A world where the registry responds with a `dist` object that lacks
the `tarball` field. -/
def envNoTarball : Env where
  fileExists := fun _ => false
  registry := .ok ⟨some ⟨none⟩⟩
  download := .error (.error ⟨"Error", "unreachable"⟩)
  extractOutcome := .success
  archiveEntries := []
  loadOk := fun _ => false

/-- A world where metadata and download succeed but the transfer's
terminal status is `ABORTED`. -/
def envAborted : Env where
  fileExists := fun _ => false
  registry := .ok ⟨some ⟨some "https://example.test/pinyin.tgz"⟩⟩
  download := .ok ⟨"/tmp/pinyin.tgz", "ABORTED"⟩
  extractOutcome := .success
  archiveEntries := []
  loadOk := fun _ => true

/-- A world where metadata and download succeed with a complete transfer
and the extraction pipeline fails at the given stage. -/
def envExtractStage (o : ExtractOutcome) : Env where
  fileExists := fun _ => false
  registry := .ok ⟨some ⟨some "https://example.test/pinyin.tgz"⟩⟩
  download := .ok ⟨"/tmp/pinyin.tgz", "COMPLETE"⟩
  extractOutcome := o
  archiveEntries := []
  loadOk := fun _ => true

/-- A world for a full first-time acquisition: binary absent, registry and
download succeed, the archive contains the conventional
`package/<name>.node` entry, and the loaded module is well-formed. -/
def envFresh (nodeName : String) : Env where
  fileExists := fun _ => false
  registry := .ok ⟨some ⟨some "https://example.test/pinyin.tgz"⟩⟩
  download := .ok ⟨"/tmp/pinyin.tgz", "COMPLETE"⟩
  extractOutcome := .success
  archiveEntries := [pathJoin "package" (nodeName ++ ".node")]
  loadOk := fun _ => true

/-- The eleven (OS, architecture) pairs of the fixed support table, as a
list. -/
def supportedPairs : List (Platform × Arch) :=
  [(.android, .arm64), (.android, .arm),
   (.win32, .x64), (.win32, .ia32), (.win32, .arm64),
   (.darwin, .x64), (.darwin, .arm64),
   (.freebsd, .x64),
   (.linux, .x64), (.linux, .arm64), (.linux, .arm)]

/-! ## Theorems -/

set_option maxHeartbeats 1600000
set_option maxRecDepth 8192

/-- C1: for every (OS, architecture) pair in the fixed support table the
table-driven resolver returns an identifier; no two distinct supported
pairs (under any libc flavors) map to the same identifier; and the
identifiers match the fixed table entries, e.g. `pinyin.win32-x64-msvc`,
`pinyin.darwin-arm64`, `pinyin.linux-arm-gnueabihf`. -/
theorem resolver_supported_total_and_distinct :
    (∀ (m : Bool) (p : Platform) (a : Arch),
        supportedPair p a = true ↔ (p, a) ∈ supportedPairs ∧
          (getNodeNameTable p.str a.str m).isOk = true) ∧
    (∀ m : Bool,
        (supportedPairs.map fun q => getNodeNameTable q.1.str q.2.str m).Nodup) ∧
    (∀ m : Bool,
        getNodeNameTable "win32" "x64" m = .ok "pinyin.win32-x64-msvc" ∧
        getNodeNameTable "darwin" "arm64" m = .ok "pinyin.darwin-arm64" ∧
        getNodeNameTable "linux" "arm" m = .ok "pinyin.linux-arm-gnueabihf") := by
  refine ⟨by decide, by decide, by decide⟩

/-- Closed instance of `resolver_supported_total_and_distinct`: win32/x64
is in the table and resolved. -/
theorem resolver_supported_total_and_distinct_witness :
    (Platform.win32, Arch.x64) ∈ supportedPairs ∧
    (getNodeNameTable (Platform.win32).str (Arch.x64).str true).isOk = true :=
  (resolver_supported_total_and_distinct.1 true .win32 .x64).mp (by decide)

/-- C3: for every (OS, architecture) combination outside the support
table — OS family absent, or family present with the architecture absent
from its sub-table — both resolver variants fail with an
`UnsupportedError` whose message contains the architecture and the OS (the
table-driven variant uses the raw platform value, the nested-switch
variant its spelled-out family label). -/
theorem resolver_unsupported_error_names_os_and_arch :
    ∀ (p : Platform) (a : Arch) (m : Bool), supportedPair p a = false →
      errNamesBoth (getNodeNameTable p.str a.str m) p.str a.str = true ∧
      errNamesBoth (getNodeNameSwitch p.str a.str m) (switchOsLabel p.str) a.str
        = true := by
  decide

/-- Closed instance of `resolver_unsupported_error_names_os_and_arch` at
linux/mips. -/
theorem resolver_unsupported_error_names_os_and_arch_witness :
    errNamesBoth (getNodeNameTable (Platform.linux).str (Arch.mips).str true)
        (Platform.linux).str (Arch.mips).str = true ∧
    errNamesBoth (getNodeNameSwitch (Platform.linux).str (Arch.mips).str true)
        (switchOsLabel (Platform.linux).str) (Arch.mips).str = true :=
  resolver_unsupported_error_names_os_and_arch .linux .mips true (by decide)

/-- C4: for Linux x64 and Linux arm64, both resolver variants yield the
musl-suffixed identifier when `isMuslLibc` is true and the gnu-suffixed
identifier when it is false, the two differing only in that suffix after
the common prefix. -/
theorem resolver_linux_libc_suffix :
    getNodeNameTable "linux" "x64" true = .ok ("pinyin.linux-x64-" ++ "musl") ∧
    getNodeNameTable "linux" "x64" false = .ok ("pinyin.linux-x64-" ++ "gnu") ∧
    getNodeNameTable "linux" "arm64" true = .ok ("pinyin.linux-arm64-" ++ "musl") ∧
    getNodeNameTable "linux" "arm64" false = .ok ("pinyin.linux-arm64-" ++ "gnu") ∧
    getNodeNameSwitch "linux" "x64" true = .ok ("pinyin.linux-x64-" ++ "musl") ∧
    getNodeNameSwitch "linux" "x64" false = .ok ("pinyin.linux-x64-" ++ "gnu") ∧
    getNodeNameSwitch "linux" "arm64" true = .ok ("pinyin.linux-arm64-" ++ "musl") ∧
    getNodeNameSwitch "linux" "arm64" false = .ok ("pinyin.linux-arm64-" ++ "gnu") := by
  decide

/-- C9: at every (platform, architecture, libc) input from the process
domains, the table-driven and the nested-switch resolver either both
succeed with the same identifier or both fail with an
`UnsupportedError`. -/
theorem resolver_variants_equivalent :
    ∀ (p : Platform) (a : Arch) (m : Bool),
      resolversAgree p.str a.str m = true := by
  decide

/-- C10: away from Linux x64 and Linux arm64, the libc flavor does not
influence either resolver variant: runs differing only in `isMuslLibc`
return identical results. -/
theorem resolver_musl_independent_off_linux_x64_arm64 :
    ∀ (p : Platform) (a : Arch),
      ¬(p = Platform.linux ∧ (a = Arch.x64 ∨ a = Arch.arm64)) →
      ∀ m m' : Bool,
        getNodeNameTable p.str a.str m = getNodeNameTable p.str a.str m' ∧
        getNodeNameSwitch p.str a.str m = getNodeNameSwitch p.str a.str m' := by
  decide

/-- Closed instance of `resolver_musl_independent_off_linux_x64_arm64` at
darwin/x64. -/
theorem resolver_musl_independent_off_linux_x64_arm64_witness :
    getNodeNameTable (Platform.darwin).str (Arch.x64).str true
        = getNodeNameTable (Platform.darwin).str (Arch.x64).str false ∧
    getNodeNameSwitch (Platform.darwin).str (Arch.x64).str true
        = getNodeNameSwitch (Platform.darwin).str (Arch.x64).str false :=
  resolver_musl_independent_off_linux_x64_arm64 .darwin .x64 (by decide) true false

lemma acquire_trace_of_local (env : Env) (nodeDir nodeName platform arch : String)
    (h : env.fileExists (nodePathOf nodeDir nodeName) = true) :
    (acquire env nodeDir nodeName platform arch).trace
      = [Effect.loadNative (nodePathOf nodeDir nodeName)] := by
  cases hl : env.loadOk (nodePathOf nodeDir nodeName) <;>
    simp [acquire, h, hl]

lemma acquire_ok_fsAfter (env : Env) (nodeDir nodeName platform arch : String)
    (h : (acquire env nodeDir nodeName platform arch).result = .ok ()) :
    (acquire env nodeDir nodeName platform arch).fsAfter
      (nodePathOf nodeDir nodeName) = true := by
  unfold acquire at h ⊢
  by_cases h1 : env.fileExists (nodePathOf nodeDir nodeName) = true
  · by_cases h2 : env.loadOk (nodePathOf nodeDir nodeName) = true
    · simp [h1, h2]
    · simp [h1, h2] at h
  · rcases hhf : handleFile env nodeName with ⟨tr, r⟩
    rw [hhf] at h
    cases r with
    | error e =>
        by_cases hd : e.isDownloadError = true <;> simp [h1, hd] at h
    | ok u =>
        by_cases hf2 :
            fsAfterExtract env nodeDir (nodePathOf nodeDir nodeName) = true
        · cases hl : env.loadOk (nodePathOf nodeDir nodeName) <;>
            simp [h1, hf2, hl]
        · simp [h1, hf2] at h

/-- C2: when the expected local file `<nodeDir>/package/<name>.node`
already exists, the acquisition performs no registry request and no
download — the trace is exactly the native load; and after any successful
acquisition, a second run over the resulting filesystem likewise makes
zero network requests. -/
theorem ensure_idempotent_no_network
    (env : Env) (nodeDir nodeName platform arch : String) :
    (env.fileExists (nodePathOf nodeDir nodeName) = true →
      (acquire env nodeDir nodeName platform arch).trace
          = [Effect.loadNative (nodePathOf nodeDir nodeName)] ∧
      networkFree (acquire env nodeDir nodeName platform arch).trace = true) ∧
    ((acquire env nodeDir nodeName platform arch).result = .ok () →
      (acquire (envAfter env nodeDir nodeName platform arch)
          nodeDir nodeName platform arch).trace
          = [Effect.loadNative (nodePathOf nodeDir nodeName)] ∧
      networkFree (acquire (envAfter env nodeDir nodeName platform arch)
          nodeDir nodeName platform arch).trace = true) := by
  constructor
  · intro h
    have ht := acquire_trace_of_local env nodeDir nodeName platform arch h
    exact ⟨ht, by rw [ht]; rfl⟩
  · intro h
    have hfs : (envAfter env nodeDir nodeName platform arch).fileExists
        (nodePathOf nodeDir nodeName) = true :=
      acquire_ok_fsAfter env nodeDir nodeName platform arch h
    have ht := acquire_trace_of_local (envAfter env nodeDir nodeName platform arch)
      nodeDir nodeName platform arch hfs
    exact ⟨ht, by rw [ht]; rfl⟩

/-- Closed instance of `ensure_idempotent_no_network`: with the binary
already present the run is network-free, and a fresh successful
acquisition followed by a second run is network-free the second time. -/
theorem ensure_idempotent_no_network_witness :
    networkFree (acquire envLocal "data" "pinyin.darwin-arm64"
      "darwin" "arm64").trace = true ∧
    networkFree (acquire
      (envAfter (envFresh "pinyin.darwin-arm64") "data" "pinyin.darwin-arm64"
        "darwin" "arm64")
      "data" "pinyin.darwin-arm64" "darwin" "arm64").trace = true :=
  ⟨((ensure_idempotent_no_network envLocal "data" "pinyin.darwin-arm64"
      "darwin" "arm64").1 rfl).2,
   ((ensure_idempotent_no_network (envFresh "pinyin.darwin-arm64") "data"
      "pinyin.darwin-arm64" "darwin" "arm64").2 rfl).2⟩

/-- C5 (counterexample to the claim as stated): when the registry request
fails with a network error, the rejection is a `DownloadError` — but its
message is `Failed to fetch from URL: <cause message>` and does NOT
contain the attempted metadata URL (the URL goes to the log only). -/
theorem registry_failure_message_lacks_url :
    (handleFile envRegistryDown "pinyin.linux-x64-gnu").2 =
      .error (downloadError "Failed to fetch from URL: socket hang up") ∧
    ¬ strContains "Failed to fetch from URL: socket hang up"
        (metadataUrl "pinyin.linux-x64-gnu") := by
  exact ⟨rfl, by decide⟩

/-- C5 (amended): every failure of the registry metadata request rejects
with a `DownloadError` whose message is the fixed prefix followed by the
underlying cause's message — it carries the cause, not the URL. -/
theorem registry_failure_wraps_cause (env : Env) (nodeName : String)
    (e : JsVal) (h : env.registry = .error e) :
    (handleFile env nodeName).2 =
      .error (downloadError ("Failed to fetch from URL: " ++ e.jsMessage)) := by
  unfold handleFile
  rw [h]

/-- Closed instance of `registry_failure_wraps_cause`. -/
theorem registry_failure_wraps_cause_witness :
    (handleFile envRegistryDown "pinyin.linux-x64-gnu").2 =
      .error (downloadError ("Failed to fetch from URL: "
        ++ (JsVal.error ⟨"Error", "socket hang up"⟩).jsMessage)) :=
  registry_failure_wraps_cause envRegistryDown "pinyin.linux-x64-gnu"
    (.error ⟨"Error", "socket hang up"⟩) rfl

/-- C6 (the code at the failing inputs): a read failure, a gunzip failure
and a tar-extraction failure all reject with the identical
`DownloadError` message `Failed to download the binary file: undefined` —
the stage-specific cause strings (which `extract` rejects with) are lost
because `.message` of a string rejection is `undefined`; the three stages
are not distinguishable in the resulting message. -/
theorem extraction_stage_errors_indistinguishable :
    (handleFile (envExtractStage (.readFail "Error: EACCES, read error"))
        "pinyin.linux-x64-gnu").2 =
      .error (downloadError "Failed to download the binary file: undefined") ∧
    (handleFile (envExtractStage (.gunzipFail "Error: incorrect header check"))
        "pinyin.linux-x64-gnu").2 =
      .error (downloadError "Failed to download the binary file: undefined") ∧
    (handleFile (envExtractStage (.untarFail "Error: TAR_BAD_ARCHIVE"))
        "pinyin.linux-x64-gnu").2 =
      .error (downloadError "Failed to download the binary file: undefined") := by
  exact ⟨rfl, rfl, rfl⟩

/-- C7 (counterexample to the claim as stated): when the registry body has
no `dist` object at all (hence no `dist.tarball` string), the rejection is
still a `DownloadError`, but its message wraps the `TypeError` text and
does not name the metadata URL. -/
theorem missing_dist_message_lacks_url :
    (handleFile envNoDist "pinyin.linux-x64-gnu").2 =
      .error (downloadError ("Failed to fetch from URL: " ++ distUndefinedMsg)) ∧
    ¬ strContains ("Failed to fetch from URL: " ++ distUndefinedMsg)
        (metadataUrl "pinyin.linux-x64-gnu") := by
  exact ⟨rfl, by decide⟩

/-- C7 (amended): whenever the successful registry response yields no
(truthy) tarball URL, `handleFile` rejects with a `DownloadError` rather
than crashing with another kind; and in the case where the `dist` object
is present (tarball field absent), the message is
`Failed to get the binary url from <metadata URL>`, which names the
metadata URL. -/
theorem missing_tarball_is_download_error (env : Env) (nodeName : String)
    (res : RegMeta) (h : env.registry = .ok res)
    (hno : res.dist.bind Dist.tarball = none
      ∨ res.dist.bind Dist.tarball = some "") :
    (∃ m, (handleFile env nodeName).2 = .error (downloadError m)) ∧
    (∀ d, res.dist = some d →
      (handleFile env nodeName).2 =
        .error (downloadError
          ("Failed to get the binary url from " ++ metadataUrl nodeName)) ∧
      strContains ("Failed to get the binary url from " ++ metadataUrl nodeName)
        (metadataUrl nodeName)) := by
  have hcontain : strContains
      ("Failed to get the binary url from " ++ metadataUrl nodeName)
      (metadataUrl nodeName) := by
    unfold strContains
    rw [String.data_append]
    exact List.IsSuffix.isInfix ⟨_, rfl⟩
  cases hd : res.dist with
  | none =>
      have key : (handleFile env nodeName).2 =
          .error (downloadError
            ("Failed to fetch from URL: " ++ distUndefinedMsg)) := by
        simp [handleFile, h, hd]
      refine ⟨⟨_, key⟩, ?_⟩
      intro d hdd
      cases hdd
  | some d0 =>
      rw [hd] at hno
      simp only [Option.some_bind] at hno
      have key : (handleFile env nodeName).2 =
          .error (downloadError
            ("Failed to get the binary url from " ++ metadataUrl nodeName)) := by
        rcases hno with h' | h' <;> simp [handleFile, h, hd, h']
      exact ⟨⟨_, key⟩, fun d' _ => ⟨key, hcontain⟩⟩

/-- Closed instance of `missing_tarball_is_download_error` at a response
whose `dist` object lacks the tarball field. -/
theorem missing_tarball_is_download_error_witness :
    (∃ m, (handleFile envNoTarball "pinyin.linux-x64-gnu").2 =
        .error (downloadError m)) ∧
    (∀ d, (RegMeta.mk (some ⟨none⟩)).dist = some d →
      (handleFile envNoTarball "pinyin.linux-x64-gnu").2 =
        .error (downloadError ("Failed to get the binary url from "
          ++ metadataUrl "pinyin.linux-x64-gnu")) ∧
      strContains ("Failed to get the binary url from "
          ++ metadataUrl "pinyin.linux-x64-gnu")
        (metadataUrl "pinyin.linux-x64-gnu")) :=
  missing_tarball_is_download_error envNoTarball "pinyin.linux-x64-gnu"
    ⟨some ⟨none⟩⟩ rfl (Or.inl rfl)

/-- C8: when the transfer resolves with a terminal status other than
`COMPLETE`, `handleFile` rejects with a `DownloadError` (the aborted-
download error, re-wrapped by the surrounding catch) and the extraction
step is never reached — the trace holds no extraction effect. -/
theorem aborted_download_error_no_extraction (env : Env) (nodeName : String)
    (res : RegMeta) (d : Dist) (u : String) (dl : DlResult)
    (h1 : env.registry = .ok res) (h2 : res.dist = some d)
    (h3 : d.tarball = some u) (h4 : (u == "") = false)
    (h5 : env.download = .ok dl)
    (h6 : (dl.downloadStatus == "COMPLETE") = false) :
    (handleFile env nodeName).2 =
      .error (downloadError
        "Failed to download the binary file: Download was aborted") ∧
    (handleFile env nodeName).1.all (fun e => ! e.isExtractStep) = true := by
  have key : handleFile env nodeName =
      ([.registryGet (metadataUrl nodeName), .download u],
        .error (downloadError
          ("Failed to download the binary file: "
            ++ (downloadError "Download was aborted").jsMessage))) := by
    simp [handleFile, h1, h2, h3, h4, h5, h6]
  rw [key]
  exact ⟨rfl, rfl⟩

/-- Closed instance of `aborted_download_error_no_extraction` at an
`ABORTED` transfer. -/
theorem aborted_download_error_no_extraction_witness :
    (handleFile envAborted "pinyin.linux-x64-gnu").2 =
      .error (downloadError
        "Failed to download the binary file: Download was aborted") ∧
    (handleFile envAborted "pinyin.linux-x64-gnu").1.all
      (fun e => ! e.isExtractStep) = true :=
  aborted_download_error_no_extraction envAborted "pinyin.linux-x64-gnu"
    ⟨some ⟨some "https://example.test/pinyin.tgz"⟩⟩
    ⟨some "https://example.test/pinyin.tgz"⟩ "https://example.test/pinyin.tgz"
    ⟨"/tmp/pinyin.tgz", "ABORTED"⟩ rfl rfl rfl rfl rfl rfl

end Pinyin
